import Mathlib

/-
Verification of the multi-agent orchestration core (orchestrator, router,
synthesizer, research / RAG / summarizer sub-workflows) against its
natural-language specification.

Shallow embedding conventions:
- Python strings are Lean `String`s; the Python string methods used by the
  code (split, strip, upper, lower, replace, startswith, the `in` operator,
  decimal formatting of ints) are embedded below as executable functions.
- Language-model calls and external collaborators (search, retrieval,
  file read, ingestion) are oracles: their responses are passed in as
  explicit arguments, and the number of calls a node makes is returned so
  that "does not invoke the Gateway" is a provable statement.
- Fallible Python code (indexing, dict item access, attribute access) is
  embedded in `Except PyErr`.
- Dynamic Python values (the dict-shaped response records and the pydantic
  objects probed by the synthesizer) are embedded by the inductive `Val`.
-/

namespace MAS

/-- Python exception kinds raised by the embedded code paths. -/
inductive PyErr where
  | indexError
  | keyError (key : String)
  | attributeError
  | valueError
  | typeError
deriving DecidableEq

instance {ε α : Type} [DecidableEq ε] [DecidableEq α] : DecidableEq (Except ε α) :=
  fun x y =>
  match x, y with
  | Except.ok a, Except.ok b =>
    if h : a = b then isTrue (by rw [h]) else isFalse (by intro hc; injection hc; contradiction)
  | Except.ok _, Except.error _ => isFalse (by intro hc; injection hc)
  | Except.error _, Except.ok _ => isFalse (by intro hc; injection hc)
  | Except.error d, Except.error e =>
    if h : d = e then isTrue (by rw [h]) else isFalse (by intro hc; injection hc; contradiction)

/-- Index of the first occurrence of `sep` as a contiguous sublist of the
argument (Python substring search, leftmost match). -/
def findSub (sep : List Char) : List Char → Option Nat
  | [] => if sep.isEmpty then some 0 else none
  | c :: cs =>
    if sep.isPrefixOf (c :: cs) then some 0
    else (findSub sep cs).map (· + 1)

/-- Fuel-driven worker for Python `str.split(sep)` with a non-empty
separator: cut at each occurrence of `sep`, left to right. -/
def pySplitAux (sep : List Char) : Nat → List Char → List (List Char)
  | 0, xs => [xs]
  | fuel + 1, xs =>
    match findSub sep xs with
    | none => [xs]
    | some i => xs.take i :: pySplitAux sep fuel (xs.drop (i + sep.length))

/-- Python `s.split(sep)` for a non-empty literal separator. -/
def pySplit (s sep : String) : List String :=
  (pySplitAux sep.data (s.data.length + 1) s.data).map String.mk

/-- Whitespace characters removed by Python `str.strip()`. -/
def isPySpace (c : Char) : Bool :=
  c = ' ' || c = '\t' || c = '\n' || c = '\r' || c = '\x0b' || c = '\x0c'

/-- Python `s.strip()`. -/
def pyStrip (s : String) : String :=
  String.mk (((s.data.dropWhile isPySpace).reverse.dropWhile isPySpace).reverse)

/-- Python `s.upper()` (ASCII-faithful). -/
def pyUpper (s : String) : String :=
  String.mk (s.data.map Char.toUpper)

/-- Python `s.lower()` (ASCII-faithful). -/
def pyLower (s : String) : String :=
  String.mk (s.data.map Char.toLower)

/-- Python `sub in s` on strings (substring containment). -/
def pyContains (s sub : String) : Bool :=
  (findSub sub.data s.data).isSome

/-- Python `s.startswith(pre)`. -/
def pyStartsWith (s pre : String) : Bool :=
  pre.data.isPrefixOf s.data

/-- Python `s.replace(old, rep)` for a non-empty `old`
(equal to `rep.join(s.split(old))`). -/
def pyReplace (s old rep : String) : String :=
  String.intercalate rep (pySplit s old)

/-- Python list indexing `l[i]` for a non-negative index:
`IndexError` when out of range. -/
def pyGetItem {α : Type} (l : List α) (i : Nat) : Except PyErr α :=
  match l.get? i with
  | some a => Except.ok a
  | none => Except.error PyErr.indexError

/-- Shared label parse used verbatim at all three call sites
(`route_message`, `route_condition`, `synthesize_node`):
`text.split("[Selected Route]")[1].split("\n")[1].strip().upper()`. -/
def parseRouteE (s : String) : Except PyErr String := do
  let part ← pyGetItem (pySplit s "[Selected Route]") 1
  let line ← pyGetItem (pySplit part "\n") 1
  Except.ok (pyUpper (pyStrip line))

/-- Message roles of the langchain message classes used by the code. -/
inductive Role where
  | human
  | ai
  | system
  | tool
deriving DecidableEq

/-- A conversation message: langchain messages carry an id, a class
(the role) and string content. -/
structure Msg where
  id : Nat
  role : Role
  content : String
deriving DecidableEq

/-- An element of the `messages` update of a node: a new message, or a
`RemoveMessage(id=...)` marker. -/
inductive MsgOp where
  | add (m : Msg)
  | removeMsg (mid : Nat)
deriving DecidableEq

/-- One step of the LangGraph `add_messages` reducer: a remove marker
deletes the message with that id; a message whose id is already present
replaces it in place; otherwise the message is appended. -/
def applyMsgOp (l : List Msg) : MsgOp → List Msg
  | MsgOp.removeMsg i => l.filter (fun m => m.id ≠ i)
  | MsgOp.add m =>
    if l.any (fun x => x.id = m.id) then l.map (fun x => if x.id = m.id then m else x)
    else l ++ [m]

/-- The LangGraph `add_messages` reducer applied to the update list of a node. -/
def add_messages (l : List Msg) (ops : List MsgOp) : List Msg :=
  ops.foldl applyMsgOp l

/-- Route mapping of `route_message` and `route_condition`
(`src/agents/orchestrator/graph.py`). -/
def route_mapping : List (String × String) :=
  [("ANSWER", "answer"), ("RESEARCH", "research"), ("RAG", "rag"),
   ("SUMMARIZE", "doc_summarize"), ("DIAGRAM", "diagram_analyze")]

/-- Python `d.get(k, dflt)` on a literal string-keyed dict. -/
def dictGetD (d : List (String × String)) (k dflt : String) : String :=
  match d.find? (fun p => p.1 = k) with
  | some p => p.2
  | none => dflt

/-- Return record of the router node. -/
structure RouterReturn where
  routing_decision : Option String
  next : String
deriving DecidableEq

/-- Embedding of `route_message` (orchestrator/graph.py): the Gateway
response content is the oracle argument `respContent`.  The parse of the
response is NOT guarded by a try/except in the source, so it can raise. -/
def route_message (messages : List Msg) (respContent : String) :
    Except PyErr RouterReturn :=
  if messages.isEmpty then Except.ok ⟨none, "research"⟩
  else
    match parseRouteE respContent with
    | Except.error e => Except.error e
    | Except.ok next_step =>
      Except.ok ⟨some respContent, dictGetD route_mapping next_step "research"⟩

/-- Embedding of `route_condition` (orchestrator/graph.py): re-parses the
stored `routing_decision`, catching IndexError/AttributeError. -/
def route_condition (routing_decision : Option String) : String :=
  let rd := routing_decision.getD ""
  if rd = "" then "research"
  else
    match parseRouteE rd with
    | Except.error _ => "research"
    | Except.ok route =>
      if route = "SUMMARIZE" then "doc_summarize"
      else dictGetD route_mapping route "research"

/-- Embedding of `should_summarize` (orchestrator/graph.py). -/
def should_summarize (messages : List Msg) : Bool :=
  if messages.length > 10 then
    match messages.getLast? with
    | some last =>
      if last.role = Role.system then false
      else decide (last.role = Role.ai)
    | none => false
  else false

/-- Return record of the chat-history summarize node. -/
structure SummaryReturn where
  summary : String
  ops : List MsgOp
  next : String
deriving DecidableEq

/-- Prompt built by `summarize_conversation` and sent to the Gateway
together with the message history (Python truthiness on the stored
summary string selects the continuation prompt). -/
def summarize_prompt (summary : String) : String :=
  if summary ≠ "" then
    "This is summary of the conversation to date: " ++ summary ++
      "\n\nExtend the summary by taking into account the new messages above:"
  else "Create a summary of the conversation above:"

/-- Embedding of `summarize_conversation` (orchestrator/graph.py); the
Gateway response content is `respContent`, the id given to the freshly
created system message is `freshId`.  The node returns RemoveMessage
markers for `messages[:-2]` followed by the new summary system message. -/
def summarize_conversation (messages : List Msg) (respContent : String)
    (freshId : Nat) : SummaryReturn :=
  let messages_to_delete :=
    if messages.length > 2 then messages.take (messages.length - 2) else []
  let delete_ops := messages_to_delete.map (fun m => MsgOp.removeMsg m.id)
  let summary_msg : Msg :=
    ⟨freshId, Role.system, "Previous conversation summary: " ++ respContent⟩
  ⟨respContent, delete_ops ++ [MsgOp.add summary_msg], "route"⟩

/-- Node set of the orchestrator graph built by `create_graph`
(orchestrator/graph.py), plus the START/END sentinels. -/
def orchestrator_nodes : List String :=
  ["START", "router", "answer", "research", "rag", "summarize",
   "doc_summarize", "diagram_analyze", "synthesize", "END"]

/-- Unconditional edges added by `create_graph`. -/
def orchestrator_edges : List (String × String) :=
  [("START", "router"), ("research", "synthesize"), ("rag", "synthesize"),
   ("doc_summarize", "synthesize"), ("diagram_analyze", "synthesize"),
   ("summarize", "END")]

/-- Conditional edges added by `create_graph`: source node paired with the
list of possible targets of its condition mapping. -/
def orchestrator_cond_edges : List (String × List String) :=
  [("router", ["answer", "research", "rag", "doc_summarize", "diagram_analyze"]),
   ("synthesize", ["summarize", "END"]),
   ("answer", ["summarize", "END"])]

/-- Step relation of the orchestrator graph: `a` can be followed by `b`
within one turn. -/
def orchestrator_step (a b : String) : Bool :=
  orchestrator_edges.contains (a, b) ||
    orchestrator_cond_edges.any (fun p => p.1 = a && p.2.contains b)

/-- Decimal digit character (used by the embedding of Python `str(i)`). -/
def digitCh (n : Nat) : Char :=
  if n = 0 then '0' else if n = 1 then '1' else if n = 2 then '2'
  else if n = 3 then '3' else if n = 4 then '4' else if n = 5 then '5'
  else if n = 6 then '6' else if n = 7 then '7' else if n = 8 then '8'
  else if n = 9 then '9' else '*'

/-- Fuel-driven decimal digit list; correct whenever `fuel ≥ n`. -/
def natReprAux : Nat → Nat → List Char
  | 0, n => [digitCh n]
  | fuel + 1, n =>
    if n < 10 then [digitCh n]
    else natReprAux fuel (n / 10) ++ [digitCh (n % 10)]

/-- Decimal representation of a natural number (Python `str(i)` as used
inside f-strings). -/
def natRepr (n : Nat) : String :=
  String.mk (natReprAux n n)

/-- Numeric value of a decimal digit character (helper). -/
def digitVal (c : Char) : Nat :=
  c.toNat - '0'.toNat

/-- Decimal decoding of a digit list (helper). -/
def decodeDigits (cs : List Char) : Nat :=
  cs.foldl (fun a c => a * 10 + digitVal c) 0

/-- Metadata dict shapes produced by `combine_summaries`: either the
error shape or the statistics shape (average length is the exact
rational value of the Python float division). -/
inductive SummMetadata where
  | errorMeta (msg : String)
  | stats (num_chunks : Nat) (avg_chunk_length : ℚ)
deriving DecidableEq

/-- The `SummarizerResponse` pydantic model (summarizer/schemas.py). -/
structure SummarizerResponse where
  chunk_summaries : List String
  final_summary : String
  num_chunks : Nat
  metadata : SummMetadata
deriving DecidableEq

/-- Embedding of `summarize_chunk` (summarizer/graph.py): the branch
returns a singleton update for the reducer-annotated `summaries`
channel, labeled with the zero-based chunk index; `llm` is the Gateway
producing the summary of the chunk text. -/
def summarize_chunk (chunk : String) (chunk_id : Nat) (llm : String → String) :
    List String :=
  [("[Chunk " ++ natRepr chunk_id ++ "] ") ++ llm chunk]

/-- Embedding of `distribute_chunks` (summarizer/graph.py): one
`Send("summarize_chunk", chunk, chunk_id=i)` per chunk, indices
assigned by `enumerate`. -/
def distribute_chunks (chunks : List String) : List (String × Nat) :=
  chunks.enum.map (fun p => (p.2, p.1))

/-- Chunk summaries joined for the final reduction prompt. -/
def formatted_summaries (summaries : List String) : String :=
  String.intercalate "\n\n" summaries

/-- Embedding of `combine_summaries` (summarizer/graph.py). -/
def combine_summaries (summaries : List String) (respContent : String) :
    SummarizerResponse :=
  if summaries.isEmpty then
    ⟨[], "No summaries to combine", 0, SummMetadata.errorMeta "No summaries generated"⟩
  else
    ⟨summaries, respContent, summaries.length,
      SummMetadata.stats summaries.length
        (((summaries.map (fun s => (s.length : ℚ))).sum) / (summaries.length : ℚ))⟩

/-- The `operator.add` reducer on the `summaries` channel: branch
contributions are appended in completion order.  `branches` is the list
of spawned `(chunk, chunk_id)` branch states in the order in which they
complete, `llm` the Gateway used by every branch. -/
def accumulate_summaries (branches : List (String × Nat))
    (llm : String → String) : List String :=
  branches.foldl (fun acc b => acc ++ summarize_chunk b.1 b.2 llm) []

/-- Dynamic Python values flowing through the orchestrator state: None,
strings, ints, string-keyed dicts, and the two attribute-bearing objects
the synthesizer probes (the summarizer response model and the diagram
structured response). -/
inductive Val where
  | vNone
  | vStr (s : String)
  | vNat (n : Nat)
  | vDict (entries : List (String × Val))
  | vSummarizer (final_summary : String) (num_chunks : Nat)
  | vDiagram (diagram : String) (filename : String)

/-- Python truthiness of a `Val`. -/
def truthy : Val → Bool
  | Val.vNone => false
  | Val.vStr s => !s.isEmpty
  | Val.vNat n => decide (n ≠ 0)
  | Val.vDict es => !es.isEmpty
  | Val.vSummarizer _ _ => true
  | Val.vDiagram _ _ => true

/-- Lookup in a dict value. -/
def dictFind (es : List (String × Val)) (k : String) : Option Val :=
  (es.find? (fun p => p.1 = k)).map (fun p => p.2)

/-- Python subscript `d[k]` on a dict value: KeyError when missing. -/
def vItem (v : Val) (k : String) : Except PyErr Val :=
  match v with
  | Val.vDict es =>
    match dictFind es k with
    | some x => Except.ok x
    | none => Except.error (PyErr.keyError k)
  | _ => Except.error PyErr.typeError

/-- Python `d.get(k, dflt)` on a value expected to be a dict:
AttributeError when the value is not a dict. -/
def vGetD (v : Val) (k : String) (dflt : Val) : Except PyErr Val :=
  match v with
  | Val.vDict es => Except.ok ((dictFind es k).getD dflt)
  | _ => Except.error PyErr.attributeError

/-- Python `str(...)` of the scalar values interpolated by the
f-strings of the synthesizer (only scalars are ever interpolated on the
non-raising paths). -/
def pyStr : Val → String
  | Val.vNone => "None"
  | Val.vStr s => s
  | Val.vNat n => natRepr n
  | Val.vDict _ => "<dict>"
  | Val.vSummarizer _ _ => "<SummarizerResponse>"
  | Val.vDiagram _ _ => "<DiagramAnalysis>"

/-- State slice read by `synthesize_node`. -/
structure SynthState where
  routing_decision : Val
  rag_response : Val
  research_response : Val
  structured_response : Val
  summarizer_response : Val
  messages : List Msg

/-- Route label extracted by `synthesize_node`: the same split chain as
the router, but wrapped in try/except so that a missing section, a
missing label line or a non-string value all collapse to "". -/
def synthesize_route (routing_decision : Val) : String :=
  match routing_decision with
  | Val.vStr s =>
    match parseRouteE s with
    | Except.ok r => r
    | Except.error _ => ""
  | _ => ""

/-- Index of the most recent human message (the backwards scan of the
synthesizer in the DIAGRAM case). -/
def lastHumanIdx : List Msg → Option Nat
  | [] => none
  | m :: rest =>
    match lastHumanIdx rest with
    | some i => some (i + 1)
    | none => if m.role = Role.human then some 0 else none

/-- Confirmation message of the RAG ingestion branch of the synthesizer;
evaluates the same subscript/`.get` chain as the source f-string, in the
same order, so the KeyError on a `metadata`-less status is reproduced. -/
def rag_ingest_message (document_status : Val) (fid : Nat) :
    Except PyErr (List MsgOp) :=
  match vItem document_status "metadata" with
  | Except.error e => Except.error e
  | Except.ok md =>
    match vGetD md "source" (Val.vStr "document") with
    | Except.error e => Except.error e
    | Except.ok srcName =>
      match vItem document_status "num_chunks" with
      | Except.error e => Except.error e
      | Except.ok nchunks =>
        match vGetD md "type" (Val.vStr "unknown") with
        | Except.error e => Except.error e
        | Except.ok dtype =>
          Except.ok [MsgOp.add ⟨fid, Role.ai,
            "Successfully processed document: " ++ pyStr srcName ++
            "\n- Number of chunks: " ++ pyStr nchunks ++
            "\n- Document type: " ++ pyStr dtype ++
            "\n\nYou can now ask questions about this document!"⟩]

/-- Answer message of the RAG query branch of the synthesizer. -/
def rag_answer_message (ra : Val) (fid : Nat) : Except PyErr (List MsgOp) :=
  match ra with
  | Val.vStr rag_analysis =>
    let content :=
      if pyContains rag_analysis "[Answer]" then
        "Here's what I found in the document:\n\n" ++
          pyStrip (pyReplace (pyReplace rag_analysis "[Answer]" "") "[Sources]" "\nBased on:")
      else rag_analysis
    Except.ok [MsgOp.add ⟨fid, Role.ai, content⟩]
  | _ => Except.error PyErr.typeError

/-- Python `v == lbl` for a string literal `lbl`: true only when `v` is
a string with that content. -/
def valIsStr (v : Val) (lbl : String) : Bool :=
  match v with
  | Val.vStr s => s = lbl
  | _ => false

/-- Case 1 of `synthesize_node` (RAG).  `none` means the Python control
flow falls through to the next case. -/
def synthCase1 (route : String) (rag_response : Val) (fid : Nat) :
    Option (Except PyErr (List MsgOp)) :=
  if route = "RAG" && truthy rag_response then
    match rag_response with
    | Val.vDict es =>
      let sourceIs : String → Bool := fun lbl =>
        valIsStr ((dictFind es "source").getD Val.vNone) lbl
      if sourceIs "process_document" &&
          truthy ((dictFind es "document_status").getD Val.vNone) then
        some (rag_ingest_message ((dictFind es "document_status").getD Val.vNone) fid)
      else if sourceIs "answer_query" &&
          truthy ((dictFind es "rag_analysis").getD Val.vNone) then
        some (rag_answer_message ((dictFind es "rag_analysis").getD Val.vNone) fid)
      else none
    | _ => some (Except.error PyErr.attributeError)
  else none

/-- Case 2 of `synthesize_node` (RESEARCH). -/
def synthCase2 (route : String) (research_response : Val) (fid : Nat) :
    Option (Except PyErr (List MsgOp)) :=
  if route = "RESEARCH" && truthy research_response then
    match research_response with
    | Val.vDict es =>
      if valIsStr ((dictFind es "source").getD Val.vNone) "researcher" then
        match dictFind es "research_findings" with
        | some f =>
          some (Except.ok [MsgOp.add ⟨fid, Role.ai,
            "Here are the findings from my research:\n\n" ++ pyStr f⟩])
        | none => some (Except.error (PyErr.keyError "research_findings"))
      else none
    | _ => some (Except.error PyErr.attributeError)
  else none

/-- Failure explanation of the DIAGRAM branch. -/
def diagram_failure_text : String :=
  "I apologize, but I wasn't able to generate a diagram for this request.\n\n" ++
  "To create a diagram, I need to:\n1. Analyze the content\n" ++
  "2. Create a Mermaid.js diagram using the create_mermaid_diagram tool\n" ++
  "3. Save it using the save_graph tool\n\n" ++
  "Please try rephrasing your request, specifying what kind of diagram you'd " ++
  "like (flowchart, gantt chart, etc.) and what elements should be included."

/-- DIAGRAM branch of the synthesizer: deletes every message after the
most recent human message and appends either the success report or the
failure explanation; reproduces the uncaught IndexError of the
code-fence cleanup when the diagram text contains a fence marker
without a following newline. -/
def diagram_case (structured_output : Val) (messages : List Msg) (fid : Nat) :
    Except PyErr (List MsgOp) :=
  match lastHumanIdx messages with
  | none => Except.ok [MsgOp.add ⟨fid, Role.ai, "No query found to process."⟩]
  | some idx =>
    let dels := (messages.drop (idx + 1)).map (fun m => MsgOp.removeMsg m.id)
    match structured_output with
    | Val.vDiagram diagram0 filename =>
      let cleaned : Except PyErr String :=
        if pyContains diagram0 "```mermaid" then
          match pyGetItem (pySplit diagram0 "```mermaid\n") 1 with
          | Except.error e => Except.error e
          | Except.ok part => Except.ok ((pySplit part "```").headD "")
        else Except.ok diagram0
      match cleaned with
      | Except.error e => Except.error e
      | Except.ok diagram =>
        Except.ok (dels ++ [MsgOp.add ⟨fid, Role.ai,
          "I've created a visual representation of the components and their relationships.\n\n" ++
          "The Mermaid.js diagram has been generated and saved to: " ++ filename ++
          "\n\nHere's the diagram content:\n\n" ++ diagram ++
          "\n\nYou can now ask questions about the diagram!"⟩]
      )
    | _ => Except.ok (dels ++ [MsgOp.add ⟨fid, Role.ai, diagram_failure_text⟩])

/-- Case 3 of `synthesize_node` (DIAGRAM): fires on the route label
alone. -/
def synthCase3 (route : String) (structured_output : Val)
    (messages : List Msg) (fid : Nat) : Option (Except PyErr (List MsgOp)) :=
  if route = "DIAGRAM" then some (diagram_case structured_output messages fid)
  else none

/-- Case 4 of `synthesize_node` (SUMMARIZE): the whole branch body is
wrapped in try/except, so every structural failure becomes the generic
apology message. -/
def synthCase4 (route : String) (summarizer_output : Val) (fid : Nat) :
    Option (Except PyErr (List MsgOp)) :=
  if route = "SUMMARIZE" && truthy summarizer_output then
    let attempt : Except PyErr (List MsgOp) :=
      let response :=
        match summarizer_output with
        | Val.vDict es => (dictFind es "summarizer_response").getD Val.vNone
        | v => v
      if !truthy response then Except.error PyErr.valueError
      else
        match response with
        | Val.vSummarizer fs nc =>
          Except.ok [MsgOp.add ⟨fid, Role.ai,
            "Here's the summary I generated:\n\n" ++ fs ++
            "\n\nDocument Statistics:\n- Number of chunks processed: " ++ natRepr nc⟩]
        | _ => Except.error PyErr.attributeError
    match attempt with
    | Except.ok r => some (Except.ok r)
    | Except.error _ =>
      some (Except.ok [MsgOp.add ⟨fid, Role.ai,
        "I encountered an error while processing the summary."⟩])
  else none

/-- Fallback message for an inconsistent state. -/
def synthesize_fallback (fid : Nat) : List MsgOp :=
  [MsgOp.add ⟨fid, Role.ai,
    "I encountered an unexpected state and cannot provide a proper response."⟩]

/-- Embedding of `synthesize_node` (orchestrator/graph.py): the four
cases in source order with Python fall-through, ending at the generic
fallback message. -/
def synthesize_node (st : SynthState) (fid : Nat) : Except PyErr (List MsgOp) :=
  let route := synthesize_route st.routing_decision
  match synthCase1 route st.rag_response fid with
  | some r => r
  | none =>
    match synthCase2 route st.research_response fid with
    | some r => r
    | none =>
      match synthCase3 route st.structured_response st.messages fid with
      | some r => r
      | none =>
        match synthCase4 route st.summarizer_response fid with
        | some r => r
        | none => Except.ok (synthesize_fallback fid)

/-- LangGraph terminal sentinel. -/
def ENDNODE : String := "__end__"

/-- The `RAGResponse` TypedDict as it appears in the orchestrator state. -/
def mkRAGResponse (document_status rag_analysis : Val) (source : String) : Val :=
  Val.vDict [("document_status", document_status), ("rag_analysis", rag_analysis),
    ("source", Val.vStr source)]

/-- One retrieved context entry (spec: Retrieved Context Entry); score is
the exact rational value of the float, which is order-faithful for the
comparisons the node performs. -/
structure ContextDoc where
  content : String
  score : Option ℚ
  source : Option String
  metadata : Option Val

/-- Sort key `float(x.get("score", 0))`. -/
def scoreKey (d : ContextDoc) : ℚ :=
  (d.score).getD 0

/-- Stable descending insertion (Python `sorted(..., reverse=True)` is a
stable descending sort). -/
def insertDesc (x : ContextDoc) : List ContextDoc → List ContextDoc
  | [] => [x]
  | y :: ys => if scoreKey x > scoreKey y then x :: y :: ys else y :: insertDesc x ys

/-- Stable descending sort by score. -/
def sortByScoreDesc (l : List ContextDoc) : List ContextDoc :=
  l.foldl (fun acc x => insertDesc x acc) []

/-- Three-digit zero padding for the fractional part. -/
def pad3 (k : Nat) : String :=
  if k < 10 then "00" ++ natRepr k
  else if k < 100 then "0" ++ natRepr k
  else natRepr k

/-- Python `f"{score:.3f}"` on the rational score value (tie-breaking at
exact half-thousandths is approximated by round-half-up). -/
def fmt3 (q : ℚ) : String :=
  let m : Int := round (q * 1000)
  let a := m.natAbs
  (if m < 0 then "-" else "") ++ natRepr (a / 1000) ++ "." ++ pad3 (a % 1000)

/-- Rendering of one context entry by `analyze_context_node`: the
`Content` block always, then `Relevance`, `Source` and `Additional Info`
blocks only when the corresponding field is present and truthy. -/
def renderDoc (d : ContextDoc) : String :=
  let entry := ["Content:", d.content]
  let entry := entry ++
    (match d.score with
     | some v => if v ≠ 0 then ["Relevance:", fmt3 v] else []
     | none => [])
  let entry := entry ++
    (match d.source with
     | some s => if s ≠ "" then ["Source:", s] else []
     | none => [])
  let entry := entry ++
    (match d.metadata with
     | some m => if truthy m then ["Additional Info:", pyStr m] else []
     | none => [])
  String.intercalate "\n" entry

/-- Return slice of `analyze_context_node`. -/
structure AnalyzeReturn where
  analysis : String
  next : String
deriving DecidableEq

/-- Embedding of `analyze_context_node` (rag/graph.py): the second
component counts the Gateway invocations the node performs; `llm` maps
the pair (optimized query, rendered context text) to the Gateway
response. -/
def analyze_context_node (optimized_query : String) (context : List ContextDoc)
    (llm : String × String → String) : AnalyzeReturn × Nat :=
  if optimized_query = "" || context.isEmpty then
    (⟨"No context to analyze", ENDNODE⟩, 0)
  else
    let context_text :=
      String.intercalate "\n\n---\n\n" ((sortByScoreDesc context).map renderDoc)
    (⟨llm (optimized_query, context_text), "answer_query"⟩, 1)

/-- Embedding of `answer_query_node` (rag/graph.py): `llm` maps the
triple (optimized query, original query, analysis) to the Gateway
response; the second component counts Gateway invocations. -/
def answer_query_node (optimized_query original_query : String)
    (analysis : Option String) (llm : String × String × String → String) :
    Val × Nat :=
  if optimized_query = "" || analysis.getD "" = "" then
    (mkRAGResponse Val.vNone (Val.vStr "No analysis to generate answer from")
      "answer_query", 0)
  else
    (mkRAGResponse Val.vNone
      (Val.vStr (llm (optimized_query, original_query, analysis.getD "")))
      "answer_query", 1)

/-- Characters matched by the regex class `[\w-]` (ASCII). -/
def isWordChar (c : Char) : Bool :=
  c.isAlphanum || c = '_' || c = '-'

/-- The extension alternation `(md|txt|py|json|yaml|yml)`, tried in the
regex alternation order (first match wins, no end anchor). -/
def matchExt (cs : List Char) : Option (List Char) :=
  if ['m', 'd'].isPrefixOf cs then some ['m', 'd']
  else if ['t', 'x', 't'].isPrefixOf cs then some ['t', 'x', 't']
  else if ['p', 'y'].isPrefixOf cs then some ['p', 'y']
  else if ['j', 's', 'o', 'n'].isPrefixOf cs then some ['j', 's', 'o', 'n']
  else if ['y', 'a', 'm', 'l'].isPrefixOf cs then some ['y', 'a', 'm', 'l']
  else if ['y', 'm', 'l'].isPrefixOf cs then some ['y', 'm', 'l']
  else none

/-- One attempted match of `[\w-]+\.(md|txt|py|json|yaml|yml)` starting
exactly at the given position: a maximal word-char run, a dot, then an
extension.  Shortening the greedy run can never expose the required dot,
so the maximal run is equivalent to the backtracking semantics. -/
def matchFileAt (cs : List Char) : Option (List Char) :=
  let run := cs.takeWhile isWordChar
  if run.isEmpty then none
  else
    match cs.drop run.length with
    | '.' :: rest => (matchExt rest).map (fun e => run ++ '.' :: e)
    | _ => none

/-- Python `re.search` of the filename pattern: leftmost match. -/
def searchFile : List Char → Option (List Char)
  | [] => none
  | c :: cs =>
    match matchFileAt (c :: cs) with
    | some m => some m
    | none => searchFile cs

/-- Result of the file-read collaborator
(spec section 6: `read(name) -> content and metadata, or error`). -/
inductive ReadResult where
  | fileError (msg : String)
  | fileOk (content : String) (metadata : Val)

/-- Arguments passed to the `ingest_document` collaborator when the node
reaches the ingestion call. -/
structure IngestCall where
  content : String
  metadata : Val

/-- Embedding of `process_document_node` (rag/graph.py).  Oracles:
`readFile` is the file-read collaborator, `checkResp` the Gateway answer
to the process-previous-message question, `now` the current timestamp,
`ingestResult` the status dict returned by the ingestion collaborator.
Returns the `rag_response` record and the ingestion call made, if any. -/
def process_document_node (messages : List Msg) (readFile : String → ReadResult)
    (checkResp : String) (now : String) (ingestResult : Val) :
    Val × Option IngestCall :=
  match messages.getLast? with
  | none => (mkRAGResponse Val.vNone Val.vNone "process_document", none)
  | some lastMsg =>
    let last_message := lastMsg.content
    let previous_message : Option String := (messages.dropLast.getLast?).map Msg.content
    match searchFile last_message.data with
    | some mtch =>
      let file_name := String.mk mtch
      match readFile file_name with
      | ReadResult.fileError err =>
        (mkRAGResponse
          (Val.vDict [("error",
            Val.vStr ("Could not read file " ++ file_name ++ ": " ++ err))])
          Val.vNone "process_document", none)
      | ReadResult.fileOk content metadata =>
        (mkRAGResponse ingestResult Val.vNone "process_document",
          some ⟨content, metadata⟩)
    | none =>
      let should_process := pyLower (pyStrip checkResp) = "true"
      if should_process && !(previous_message.getD "").isEmpty then
        let p := previous_message.getD ""
        let src :=
          if pyContains (pyLower p) "research" then "research_results" else "chat"
        (mkRAGResponse ingestResult Val.vNone "process_document",
          some ⟨p, Val.vDict [("type", Val.vStr "inline"), ("source", Val.vStr src),
            ("timestamp", Val.vStr now)]⟩)
      else
        (mkRAGResponse
          (Val.vDict [("error", Val.vStr "No valid file or content found to process")])
          Val.vNone "process_document", none)

/-- Scratch state of the research sub-graph (researcher/schemas.py). -/
structure ResearchState where
  web_query : String
  wiki_query : String
  web_results : String
  wiki_results : String
deriving DecidableEq

/-- One web search hit. -/
structure WebHit where
  url : Option String
  content : String

/-- One encyclopedic search hit. -/
structure WikiHit where
  title : Option String
  content : String

/-- Document block built by `web_search_node` for one hit (the leading
whitespace reproduces the indented f-string literal). -/
def formatWebHit (r : WebHit) : String :=
  "<Document href=\"" ++ r.url.getD "Unknown" ++ "\">\n            " ++
    r.content ++ "\n            </Document>"

/-- Embedding of `web_search_node` (researcher/graph.py): second
component counts calls to the external search collaborator. -/
def web_search_node (st : ResearchState) (search : String → List WebHit) :
    String × Nat :=
  if st.web_query = "" then ("", 0)
  else
    (String.intercalate "\n\n---\n\n" ((search st.web_query).map formatWebHit), 1)

/-- Document block built by `wiki_search_node` for one hit. -/
def formatWikiHit (r : WikiHit) : String :=
  "<Document source=\"Wikipedia\" title=\"" ++ r.title.getD "Wikipedia Article" ++
    "\">\n" ++ r.content ++ "\n</Document>"

/-- Embedding of `wiki_search_node` (researcher/graph.py): second
component counts calls to the external search collaborator. -/
def wiki_search_node (st : ResearchState) (search : String → List WikiHit) :
    String × Nat :=
  if st.wiki_query = "" then ("", 0)
  else
    (String.intercalate "\n\n---\n\n" ((search st.wiki_query).map formatWikiHit), 1)

/-- Parsing the empty routing text raises IndexError (helper). -/
theorem parseRouteE_empty : parseRouteE "" = Except.error PyErr.indexError := by decide

/-- C4: `should_summarize` returns true iff the message count exceeds the
fixed threshold 10 and the last message is an assistant message; in
particular it returns false whenever the last message is a system
message, regardless of message count. -/
theorem C4_should_summarize_iff :
    (∀ messages : List Msg,
      (should_summarize messages = true ↔
        messages.length > 10 ∧ ∃ m, messages.getLast? = some m ∧ m.role = Role.ai)) ∧
    (∀ messages : List Msg, ∀ m, messages.getLast? = some m → m.role = Role.system →
      should_summarize messages = false) := by
  constructor
  · intro messages
    by_cases h : messages.length > 10
    · rcases hl : messages.getLast? with _ | m
      · have hne : messages ≠ [] := by
          intro he; rw [he] at h; simp at h
        simp [List.getLast?_eq_none_iff] at hl
        exact absurd hl hne
      · simp [should_summarize, h, hl]
        intro hsys
        rw [hsys]
        decide
    · simp [should_summarize, h]
  · intro messages m hm hr
    by_cases h : messages.length > 10
    · simp [should_summarize, h, hm, hr]
    · simp [should_summarize, h]

/-- C4 witness: a 12-message history ending in a system message is not
summarized. -/
theorem C4_should_summarize_witness :
    should_summarize
      [⟨1, Role.human, "a"⟩, ⟨2, Role.ai, "b"⟩, ⟨3, Role.human, "c"⟩,
       ⟨4, Role.ai, "d"⟩, ⟨5, Role.human, "e"⟩, ⟨6, Role.ai, "f"⟩,
       ⟨7, Role.human, "g"⟩, ⟨8, Role.ai, "h"⟩, ⟨9, Role.human, "i"⟩,
       ⟨10, Role.ai, "j"⟩, ⟨11, Role.human, "k"⟩, ⟨12, Role.system, "s"⟩] = false := by
  exact C4_should_summarize_iff.2 _ ⟨12, Role.system, "s"⟩ (by decide) rfl

/-- C1 counterexample: on a routing text without the "[Selected Route]"
section, `route_message` raises IndexError while `route_condition`
returns "research" — the claim that both call sites select RESEARCH
rather than raising is false. -/
theorem C1_route_message_raises_counterexample :
    route_message [⟨1, Role.human, "hi"⟩] "I choose RESEARCH"
      = Except.error PyErr.indexError ∧
    route_condition (some "I choose RESEARCH") = "research" := by
  exact ⟨rfl, rfl⟩

/-- C1 amended: `route_condition` defaults to "research" on every
unparseable text and on a missing decision; `route_message` defaults to
"research" on the empty message list and on parseable-but-unrecognized
labels, but propagates the parse IndexError on unparseable text; the two
call sites agree whenever the shared parse succeeds. -/
theorem C1_router_default_amended :
    (∀ s e, parseRouteE s = Except.error e →
      route_condition (some s) = "research" ∧
      ∀ messages : List Msg, messages ≠ [] → route_message messages s = Except.error e) ∧
    (∀ s l, parseRouteE s = Except.ok l → l ∉ route_mapping.map Prod.fst →
      route_condition (some s) = "research" ∧
      ∀ messages : List Msg, messages ≠ [] →
        route_message messages s = Except.ok ⟨some s, "research"⟩) ∧
    (∀ s, route_message [] s = Except.ok ⟨none, "research"⟩) ∧
    (route_condition none = "research") ∧
    (∀ s l, parseRouteE s = Except.ok l →
      ∀ messages : List Msg, messages ≠ [] →
        (route_message messages s).map RouterReturn.next =
          Except.ok (route_condition (some s))) := by
  refine ⟨?_, ?_, ?_, ?_, ?_⟩
  · intro s e hp
    constructor
    · by_cases hs : s = ""
      · simp [route_condition, hs]
      · simp [route_condition, hs, hp]
    · intro messages hne
      simp [route_message, hne, hp]
  · intro s l hp hl
    have hs : s ≠ "" := by
      intro he
      rw [he, parseRouteE_empty] at hp
      exact absurd hp (by simp)
    have hkeys : l ≠ "ANSWER" ∧ l ≠ "RESEARCH" ∧ l ≠ "RAG" ∧ l ≠ "SUMMARIZE" ∧
        l ≠ "DIAGRAM" := by
      simp [route_mapping] at hl
      tauto
    obtain ⟨h1, h2, h3, h4, h5⟩ := hkeys
    have hget : dictGetD route_mapping l "research" = "research" := by
      simp [dictGetD, route_mapping, List.find?, Ne.symm h1, Ne.symm h2, Ne.symm h3,
        Ne.symm h4, Ne.symm h5]
    constructor
    · simp [route_condition, hs, hp, h4, hget]
    · intro messages hne
      simp [route_message, hne, hp, hget]
  · intro s
    simp [route_message]
  · simp [route_condition]
  · intro s l hp messages hne
    have hs : s ≠ "" := by
      intro he
      rw [he, parseRouteE_empty] at hp
      exact absurd hp (by simp)
    by_cases h4 : l = "SUMMARIZE"
    · subst h4
      simp [route_message, route_condition, hne, hs, hp, Except.map,
        dictGetD, route_mapping, List.find?]
    · simp [route_message, route_condition, hne, hs, hp, h4, Except.map]

/-- C1 witness: concrete instances of the amended routing defaults. -/
theorem C1_router_default_witness :
    route_condition (some "mangled router output") = "research" ∧
    route_message [⟨1, Role.human, "q"⟩] "mangled router output"
      = Except.error PyErr.indexError ∧
    route_message [⟨1, Role.human, "q"⟩] "[Selected Route]\nFOO\n"
      = Except.ok ⟨some "[Selected Route]\nFOO\n", "research"⟩ := by
  refine ⟨?_, ?_, ?_⟩
  · exact (C1_router_default_amended.1 "mangled router output" PyErr.indexError
      (by decide)).1
  · exact (C1_router_default_amended.1 "mangled router output" PyErr.indexError
      (by decide)).2 [⟨1, Role.human, "q"⟩] (by decide)
  · exact (C1_router_default_amended.2.1 "[Selected Route]\nFOO\n" "FOO"
      (by decide) (by decide)).2 [⟨1, Role.human, "q"⟩] (by decide)

/-- C9: in the orchestrator graph the chat-history summarize node has END
as its only successor (so routing is never re-entered after it within a
turn), and END itself has no successor. -/
theorem C9_summarize_terminal :
    (∀ b, orchestrator_step "summarize" b = true → b = "END") ∧
    (∀ b, orchestrator_step "END" b = false) ∧
    orchestrator_step "summarize" "END" = true := by
  refine ⟨?_, ?_, by decide⟩
  · intro b hb
    simp [orchestrator_step, orchestrator_edges, orchestrator_cond_edges,
      List.contains, List.any] at hb
    exact hb
  · intro b
    simp [orchestrator_step, orchestrator_edges, orchestrator_cond_edges,
      List.contains, List.any]

/-- C9 witness: the single outgoing edge of the summarize node. -/
theorem C9_summarize_terminal_witness :
    "END" = "END" ∧ orchestrator_step "summarize" "END" = true := by
  exact ⟨C9_summarize_terminal.1 "END" (by decide), C9_summarize_terminal.2.2⟩

/-- Folding RemoveMessage markers filters by id (helper). -/
theorem removeOps_foldl (ids : List Nat) (l : List Msg) :
    (ids.map MsgOp.removeMsg).foldl applyMsgOp l
      = l.filter (fun m => decide (m.id ∉ ids)) := by
  induction ids generalizing l with
  | nil => simp
  | cons i ids ih =>
    simp only [List.map_cons, List.foldl_cons, applyMsgOp]
    rw [ih]
    rw [List.filter_filter]
    apply List.filter_congr
    intro m _
    by_cases h1 : m.id = i <;> by_cases h2 : m.id ∈ ids <;> simp [h1, h2]

/-- Adding a message with a fresh id appends it (helper). -/
theorem applyMsgOp_add_fresh (l : List Msg) (m : Msg)
    (hfresh : ∀ x ∈ l, x.id ≠ m.id) :
    applyMsgOp l (MsgOp.add m) = l ++ [m] := by
  have hany : l.any (fun x => x.id = m.id) = false := by
    simp only [List.any_eq_false, decide_eq_true_eq]
    exact hfresh
  simp [applyMsgOp, hany]

/-- Effect of a remove-then-add update through the reducer (helper). -/
theorem add_messages_removes_then_adds (ids : List Nat) (l : List Msg) (m : Msg)
    (hfresh : ∀ x ∈ l, x.id ≠ m.id) :
    add_messages l ((ids.map MsgOp.removeMsg) ++ [MsgOp.add m])
      = l.filter (fun x => decide (x.id ∉ ids)) ++ [m] := by
  unfold add_messages
  rw [List.foldl_append, removeOps_foldl]
  apply applyMsgOp_add_fresh
  intro x hx
  exact hfresh x (List.mem_of_mem_filter hx)

/-- Removing the ids of a prefix keeps exactly the suffix (helper). -/
theorem filter_id_not_mem_prefix (pre post : List Msg)
    (hnd : ((pre ++ post).map Msg.id).Nodup) :
    (pre ++ post).filter (fun x => decide (x.id ∉ pre.map Msg.id)) = post := by
  rw [List.filter_append]
  rw [List.map_append] at hnd
  have hdisj := List.disjoint_of_nodup_append hnd
  have h1 : pre.filter (fun x => decide (x.id ∉ pre.map Msg.id)) = [] := by
    apply List.filter_eq_nil_iff.mpr
    intro a ha
    simp only [decide_eq_true_eq, not_not]
    simp [List.mem_map]
    exact ⟨a, ha, rfl⟩
  have h2 : post.filter (fun x => decide (x.id ∉ pre.map Msg.id)) = post := by
    apply List.filter_eq_self.mpr
    intro a ha
    simp only [decide_eq_true_eq]
    intro hmem
    exact hdisj hmem (List.mem_map_of_mem Msg.id ha)
  rw [h1, h2, List.nil_append]

/-- Removing the ids of a suffix keeps exactly the prefix (helper). -/
theorem filter_id_not_mem_suffix (pre post : List Msg)
    (hnd : ((pre ++ post).map Msg.id).Nodup) :
    (pre ++ post).filter (fun x => decide (x.id ∉ post.map Msg.id)) = pre := by
  rw [List.filter_append]
  rw [List.map_append] at hnd
  have hdisj := List.disjoint_of_nodup_append hnd
  have h1 : pre.filter (fun x => decide (x.id ∉ post.map Msg.id)) = pre := by
    apply List.filter_eq_self.mpr
    intro a ha
    simp only [decide_eq_true_eq]
    intro hmem
    exact hdisj (List.mem_map_of_mem Msg.id ha) hmem
  have h2 : post.filter (fun x => decide (x.id ∉ post.map Msg.id)) = [] := by
    apply List.filter_eq_nil_iff.mpr
    intro a ha
    simp only [decide_eq_true_eq, not_not]
    exact List.mem_map_of_mem Msg.id ha
  rw [h1, h2, List.append_nil]

/-- C3 counterexample: on an 11-message history the post-state places the
new summary system message AFTER the two kept messages (the reducer
appends unknown ids at the end), refuting the part of the claim that
says the system message precedes the kept messages. -/
theorem C3_summary_position_counterexample :
    should_summarize
      [⟨1, Role.human, "a"⟩, ⟨2, Role.ai, "b"⟩, ⟨3, Role.human, "c"⟩,
       ⟨4, Role.ai, "d"⟩, ⟨5, Role.human, "e"⟩, ⟨6, Role.ai, "f"⟩,
       ⟨7, Role.human, "g"⟩, ⟨8, Role.ai, "h"⟩, ⟨9, Role.human, "i"⟩,
       ⟨10, Role.human, "j"⟩, ⟨11, Role.ai, "k"⟩] = true ∧
    add_messages
      [⟨1, Role.human, "a"⟩, ⟨2, Role.ai, "b"⟩, ⟨3, Role.human, "c"⟩,
       ⟨4, Role.ai, "d"⟩, ⟨5, Role.human, "e"⟩, ⟨6, Role.ai, "f"⟩,
       ⟨7, Role.human, "g"⟩, ⟨8, Role.ai, "h"⟩, ⟨9, Role.human, "i"⟩,
       ⟨10, Role.human, "j"⟩, ⟨11, Role.ai, "k"⟩]
      (summarize_conversation
        [⟨1, Role.human, "a"⟩, ⟨2, Role.ai, "b"⟩, ⟨3, Role.human, "c"⟩,
         ⟨4, Role.ai, "d"⟩, ⟨5, Role.human, "e"⟩, ⟨6, Role.ai, "f"⟩,
         ⟨7, Role.human, "g"⟩, ⟨8, Role.ai, "h"⟩, ⟨9, Role.human, "i"⟩,
         ⟨10, Role.human, "j"⟩, ⟨11, Role.ai, "k"⟩] "NEW" 99).ops
      = [⟨10, Role.human, "j"⟩, ⟨11, Role.ai, "k"⟩,
         ⟨99, Role.system, "Previous conversation summary: NEW"⟩] ∧
    (add_messages
      [⟨1, Role.human, "a"⟩, ⟨2, Role.ai, "b"⟩, ⟨3, Role.human, "c"⟩,
       ⟨4, Role.ai, "d"⟩, ⟨5, Role.human, "e"⟩, ⟨6, Role.ai, "f"⟩,
       ⟨7, Role.human, "g"⟩, ⟨8, Role.ai, "h"⟩, ⟨9, Role.human, "i"⟩,
       ⟨10, Role.human, "j"⟩, ⟨11, Role.ai, "k"⟩]
      (summarize_conversation
        [⟨1, Role.human, "a"⟩, ⟨2, Role.ai, "b"⟩, ⟨3, Role.human, "c"⟩,
         ⟨4, Role.ai, "d"⟩, ⟨5, Role.human, "e"⟩, ⟨6, Role.ai, "f"⟩,
         ⟨7, Role.human, "g"⟩, ⟨8, Role.ai, "h"⟩, ⟨9, Role.human, "i"⟩,
         ⟨10, Role.human, "j"⟩, ⟨11, Role.ai, "k"⟩] "NEW" 99).ops).head?
      ≠ some ⟨99, Role.system, "Previous conversation summary: NEW"⟩ := by
  refine ⟨by decide, by decide, by decide⟩

/-- C3 amended: whenever `should_summarize` holds (ids distinct, summary
message id fresh), the post-state is exactly the last two pre-summary
messages FOLLOWED by the single new summary system message, every older
message is removed, and the summary field is replaced wholesale with the
new summary text. -/
theorem C3_prune_and_replace_amended (messages : List Msg) (resp : String)
    (fid : Nat) (hshould : should_summarize messages = true)
    (hnd : (messages.map Msg.id).Nodup)
    (hfresh : ∀ x ∈ messages, x.id ≠ fid) :
    (summarize_conversation messages resp fid).summary = resp ∧
    add_messages messages (summarize_conversation messages resp fid).ops
      = messages.drop (messages.length - 2)
        ++ [⟨fid, Role.system, "Previous conversation summary: " ++ resp⟩] := by
  have hlen : messages.length > 2 := by
    by_cases h : messages.length > 10
    · omega
    · simp [should_summarize, h] at hshould
  refine ⟨rfl, ?_⟩
  have hmm : (messages.take (messages.length - 2)).map (fun m => MsgOp.removeMsg m.id)
      = ((messages.take (messages.length - 2)).map Msg.id).map MsgOp.removeMsg := by
    rw [List.map_map]
    rfl
  simp only [summarize_conversation, if_pos hlen, hmm]
  rw [add_messages_removes_then_adds _ _ _ hfresh]
  congr 1
  have hres := filter_id_not_mem_prefix (messages.take (messages.length - 2))
    (messages.drop (messages.length - 2))
    (by rw [List.take_append_drop]; exact hnd)
  rw [List.take_append_drop] at hres
  exact hres

/-- C3 witness: the amended pruning behavior at a concrete 11-message
history. -/
theorem C3_prune_and_replace_witness :
    (summarize_conversation
      [⟨1, Role.human, "a"⟩, ⟨2, Role.ai, "b"⟩, ⟨3, Role.human, "c"⟩,
       ⟨4, Role.ai, "d"⟩, ⟨5, Role.human, "e"⟩, ⟨6, Role.ai, "f"⟩,
       ⟨7, Role.human, "g"⟩, ⟨8, Role.ai, "h"⟩, ⟨9, Role.human, "i"⟩,
       ⟨10, Role.human, "j"⟩, ⟨11, Role.ai, "k"⟩] "FRESH" 42).summary = "FRESH" ∧
    add_messages
      [⟨1, Role.human, "a"⟩, ⟨2, Role.ai, "b"⟩, ⟨3, Role.human, "c"⟩,
       ⟨4, Role.ai, "d"⟩, ⟨5, Role.human, "e"⟩, ⟨6, Role.ai, "f"⟩,
       ⟨7, Role.human, "g"⟩, ⟨8, Role.ai, "h"⟩, ⟨9, Role.human, "i"⟩,
       ⟨10, Role.human, "j"⟩, ⟨11, Role.ai, "k"⟩]
      (summarize_conversation
        [⟨1, Role.human, "a"⟩, ⟨2, Role.ai, "b"⟩, ⟨3, Role.human, "c"⟩,
         ⟨4, Role.ai, "d"⟩, ⟨5, Role.human, "e"⟩, ⟨6, Role.ai, "f"⟩,
         ⟨7, Role.human, "g"⟩, ⟨8, Role.ai, "h"⟩, ⟨9, Role.human, "i"⟩,
         ⟨10, Role.human, "j"⟩, ⟨11, Role.ai, "k"⟩] "FRESH" 42).ops
      = ([⟨1, Role.human, "a"⟩, ⟨2, Role.ai, "b"⟩, ⟨3, Role.human, "c"⟩,
          ⟨4, Role.ai, "d"⟩, ⟨5, Role.human, "e"⟩, ⟨6, Role.ai, "f"⟩,
          ⟨7, Role.human, "g"⟩, ⟨8, Role.ai, "h"⟩, ⟨9, Role.human, "i"⟩,
          ⟨10, Role.human, "j"⟩, ⟨11, Role.ai, "k"⟩] : List Msg).drop
          (([⟨1, Role.human, "a"⟩, ⟨2, Role.ai, "b"⟩, ⟨3, Role.human, "c"⟩,
             ⟨4, Role.ai, "d"⟩, ⟨5, Role.human, "e"⟩, ⟨6, Role.ai, "f"⟩,
             ⟨7, Role.human, "g"⟩, ⟨8, Role.ai, "h"⟩, ⟨9, Role.human, "i"⟩,
             ⟨10, Role.human, "j"⟩, ⟨11, Role.ai, "k"⟩] : List Msg).length - 2)
        ++ [⟨42, Role.system, "Previous conversation summary: " ++ "FRESH"⟩] := by
  exact C3_prune_and_replace_amended _ "FRESH" 42 (by decide) (by decide) (by decide)

/-- Decoding after appending one digit (helper). -/
theorem decodeDigits_append (cs : List Char) (c : Char) :
    decodeDigits (cs ++ [c]) = decodeDigits cs * 10 + digitVal c := by
  simp [decodeDigits, List.foldl_append]

/-- Digit characters decode to their value (helper). -/
theorem digitVal_digitCh (n : Nat) (h : n < 10) : digitVal (digitCh n) = n := by
  interval_cases n <;> decide

/-- Digit characters are digits (helper). -/
theorem digitCh_isDigit (n : Nat) (h : n < 10) : (digitCh n).isDigit = true := by
  interval_cases n <;> decide

/-- Round trip of the fuel-driven decimal representation (helper). -/
theorem decode_natReprAux : ∀ fuel n, n ≤ fuel ∨ n < 10 →
    decodeDigits (natReprAux fuel n) = n := by
  intro fuel
  induction fuel with
  | zero =>
    intro n hn
    have h10 : n < 10 := by omega
    simp [natReprAux, decodeDigits]
    exact digitVal_digitCh n h10
  | succ fuel ih =>
    intro n hn
    by_cases h10 : n < 10
    · simp [natReprAux, h10, decodeDigits]
      exact digitVal_digitCh n h10
    · have hd : n / 10 ≤ fuel := by omega
      simp only [natReprAux, if_neg h10]
      rw [decodeDigits_append, ih (n / 10) (Or.inl hd),
        digitVal_digitCh (n % 10) (Nat.mod_lt n (by omega))]
      omega

/-- Injectivity of the decimal representation (helper). -/
theorem natRepr_inj (a b : Nat) (h : natRepr a = natRepr b) : a = b := by
  have hd : (natRepr a).data = (natRepr b).data := by rw [h]
  simp only [natRepr] at hd
  have ha := decode_natReprAux a a (Or.inl le_rfl)
  have hb := decode_natReprAux b b (Or.inl le_rfl)
  rw [← ha, ← hb, hd]

/-- Every character of the representation is a digit (helper). -/
theorem natReprAux_digits : ∀ fuel n, n ≤ fuel ∨ n < 10 →
    ∀ c ∈ natReprAux fuel n, c.isDigit = true := by
  intro fuel
  induction fuel with
  | zero =>
    intro n hn c hc
    have h10 : n < 10 := by omega
    simp [natReprAux] at hc
    rw [hc]
    exact digitCh_isDigit n h10
  | succ fuel ih =>
    intro n hn c hc
    by_cases h10 : n < 10
    · simp [natReprAux, h10] at hc
      rw [hc]
      exact digitCh_isDigit n h10
    · have hd : n / 10 ≤ fuel := by omega
      simp only [natReprAux, if_neg h10, List.mem_append, List.mem_singleton] at hc
      rcases hc with hc | hc
      · exact ih (n / 10) (Or.inl hd) c hc
      · rw [hc]
        exact digitCh_isDigit (n % 10) (Nat.mod_lt n (by omega))

/-- Every character of `natRepr n` is a digit (helper). -/
theorem natRepr_digits (n : Nat) : ∀ c ∈ (natRepr n).data, c.isDigit = true := by
  simp only [natRepr]
  exact natReprAux_digits n n (Or.inl le_rfl)

/-- A digit block terminated by a closing bracket determines itself
within a longer string (helper). -/
theorem digit_blocks_prefix : ∀ (di dj t1 t2 : List Char),
    (∀ c ∈ di, c.isDigit = true) → (∀ c ∈ dj, c.isDigit = true) →
    (di ++ ']' :: t1) <+: (dj ++ ']' :: t2) → di = dj := by
  intro di
  induction di with
  | nil =>
    intro dj t1 t2 _ hdj hpre
    cases dj with
    | nil => rfl
    | cons d dj2 =>
      simp only [List.nil_append, List.cons_append] at hpre
      rw [List.cons_prefix_cons] at hpre
      have hdig : d.isDigit = true := hdj d (by simp)
      rw [← hpre.1] at hdig
      exact absurd hdig (by decide)
  | cons a di2 ih =>
    intro dj t1 t2 hdi hdj hpre
    cases dj with
    | nil =>
      simp only [List.cons_append, List.nil_append] at hpre
      rw [List.cons_prefix_cons] at hpre
      have hdig : a.isDigit = true := hdi a (by simp)
      rw [hpre.1] at hdig
      exact absurd hdig (by decide)
    | cons d dj2 =>
      simp only [List.cons_append] at hpre
      rw [List.cons_prefix_cons] at hpre
      have heq := hpre.1
      have htl := ih dj2 t1 t2 (fun c hc => hdi c (by simp [hc]))
        (fun c hc => hdj c (by simp [hc])) hpre.2
      rw [heq, htl]

/-- A chunk entry starts with the label of index `i` exactly when its own
index is `i` (helper). -/
theorem chunk_label_startsWith (i j : Nat) (c : String) :
    pyStartsWith ("[Chunk " ++ natRepr j ++ "] " ++ c) ("[Chunk " ++ natRepr i ++ "]")
      = decide (i = j) := by
  have hdata2 : ("] " : String).data = ']' :: [' '] := rfl
  have hdata3 : ("]" : String).data = [']'] := rfl
  rw [pyStartsWith]
  by_cases h : i = j
  · subst h
    have hdec : decide (i = i) = true := by simp
    rw [hdec, List.isPrefixOf_iff_prefix]
    simp only [String.data_append, List.append_assoc, hdata2, hdata3,
      List.cons_append, List.nil_append]
    simp only [List.cons_prefix_cons, true_and]
    rw [List.prefix_append_right_inj]
    rw [List.cons_prefix_cons]
    exact ⟨rfl, List.nil_prefix⟩
  · have hdec : decide (i = j) = false := by simp [h]
    rw [hdec]
    apply Bool.eq_false_iff.mpr
    intro htrue
    rw [List.isPrefixOf_iff_prefix] at htrue
    simp only [String.data_append, List.append_assoc, hdata2, hdata3,
      List.cons_append, List.nil_append] at htrue
    simp only [List.cons_prefix_cons, true_and] at htrue
    have hij := digit_blocks_prefix ((natRepr i).data) ((natRepr j).data) []
      (' ' :: c.data) (natRepr_digits i) (natRepr_digits j) htrue
    have h1 := decode_natReprAux i i (Or.inl le_rfl)
    have h2 := decode_natReprAux j j (Or.inl le_rfl)
    have hij2 : i = j := by
      rw [← h1, ← h2]
      exact congrArg decodeDigits hij
    exact h hij2

/-- The reducer fold equals the labeled map over completion order
(helper). -/
theorem accumulate_summaries_eq_map (order : List (String × Nat))
    (llm : String → String) :
    accumulate_summaries order llm
      = order.map (fun b => "[Chunk " ++ natRepr b.2 ++ "] " ++ llm b.1) := by
  have haux : ∀ (l : List (String × Nat)) (acc : List String),
      l.foldl (fun a b => a ++ summarize_chunk b.1 b.2 llm) acc
        = acc ++ l.map (fun b => "[Chunk " ++ natRepr b.2 ++ "] " ++ llm b.1) := by
    intro l
    induction l with
    | nil => intro acc; simp
    | cons x xs ih =>
      intro acc
      rw [List.foldl_cons, ih]
      simp [summarize_chunk]
  unfold accumulate_summaries
  rw [haux]
  simp

/-- Counting a chunk label over the fan-out of a document (helper). -/
theorem countP_label_distribute (chunks : List String) (llm : String → String)
    (i : Nat) :
    ((distribute_chunks chunks).map
        (fun b => "[Chunk " ++ natRepr b.2 ++ "] " ++ llm b.1)).countP
      (fun s => pyStartsWith s ("[Chunk " ++ natRepr i ++ "]"))
      = if i < chunks.length then 1 else 0 := by
  unfold distribute_chunks
  rw [List.map_map, List.countP_map]
  have hcongr : ∀ pr ∈ chunks.enum,
      ((fun s => pyStartsWith s ("[Chunk " ++ natRepr i ++ "]")) ∘
        ((fun b : String × Nat => "[Chunk " ++ natRepr b.2 ++ "] " ++ llm b.1) ∘
          (fun p : Nat × String => (p.2, p.1)))) pr = true
      ↔ ((fun k => decide (i = k)) ∘ Prod.fst) pr = true := by
    intro pr _
    simp only [Function.comp_apply]
    rw [chunk_label_startsWith]
  rw [List.countP_congr hcongr, ← List.countP_map, List.enum_map_fst]
  have hbeq : ∀ k ∈ List.range chunks.length,
      decide (i = k) = true ↔ (k == i) = true := by
    intro k _
    rw [decide_eq_true_eq, beq_iff_eq]
    exact eq_comm
  rw [List.countP_congr hbeq]
  by_cases hlt : i < chunks.length
  · rw [if_pos hlt]
    exact List.count_eq_one_of_mem (List.nodup_range _) (List.mem_range.mpr hlt)
  · rw [if_neg hlt]
    exact List.count_eq_zero_of_not_mem (fun hmem => hlt (List.mem_range.mp hmem))

/-- C5: for every document split into N chunks and every completion order
(permutation of the fan-out), the accumulated summaries list has exactly
N entries, each label "[Chunk i]" with i < N occurs exactly once, and
`combine_summaries` reports N processed chunks. -/
theorem C5_fanout_completeness (chunks : List String) (llm : String → String)
    (finalResp : String) (order : List (String × Nat))
    (hperm : order.Perm (distribute_chunks chunks)) :
    (accumulate_summaries order llm).length = chunks.length ∧
    (∀ i, i < chunks.length →
      (accumulate_summaries order llm).countP
        (fun s => pyStartsWith s ("[Chunk " ++ natRepr i ++ "]")) = 1) ∧
    (combine_summaries (accumulate_summaries order llm) finalResp).num_chunks
      = chunks.length := by
  have hacc := accumulate_summaries_eq_map order llm
  have hpermmap := hperm.map (fun b => "[Chunk " ++ natRepr b.2 ++ "] " ++ llm b.1)
  have hlen : (accumulate_summaries order llm).length = chunks.length := by
    rw [hacc, List.length_map, hperm.length_eq]
    unfold distribute_chunks
    rw [List.length_map, List.enum_length]
  refine ⟨hlen, ?_, ?_⟩
  · intro i hi
    rw [hacc, hpermmap.countP_eq, countP_label_distribute, if_pos hi]
  · rcases hc : accumulate_summaries order llm with _ | ⟨x, xs⟩
    · rw [hc] at hlen
      simp at hlen
      simp [combine_summaries, ← hlen]
    · rw [hc] at hlen
      simp [combine_summaries, ← hlen]

/-- C5 witness: three chunks completing in the order 2, 0, 1 still yield
three summaries with the label of chunk 0 occurring exactly once. -/
theorem C5_fanout_completeness_witness :
    (accumulate_summaries [("c", 2), ("a", 0), ("b", 1)]
      (fun s => "summary of " ++ s)).length = 3 ∧
    (accumulate_summaries [("c", 2), ("a", 0), ("b", 1)]
      (fun s => "summary of " ++ s)).countP
      (fun s => pyStartsWith s ("[Chunk " ++ natRepr 0 ++ "]")) = 1 := by
  have h := C5_fanout_completeness ["a", "b", "c"] (fun s => "summary of " ++ s)
    "FINAL" [("c", 2), ("a", 0), ("b", 1)] (by decide)
  exact ⟨h.1, h.2.1 0 (by decide)⟩

/-- C6: `analyze_context_node` with an empty optimized query or empty
retrieved context returns the analysis "No context to analyze" without
invoking the Gateway, and `answer_query_node` with an empty optimized
query or missing analysis returns the fixed placeholder without
invoking the Gateway (zero Gateway calls, result independent of the
Gateway oracle). -/
theorem C6_empty_short_circuit :
    (∀ (q : String) (context : List ContextDoc) (llm : String × String → String),
      (q = "" ∨ context = []) →
      analyze_context_node q context llm = (⟨"No context to analyze", ENDNODE⟩, 0)) ∧
    (∀ (q oq : String) (analysis : Option String)
        (llm : String × String × String → String),
      (q = "" ∨ analysis = none ∨ analysis = some "") →
      answer_query_node q oq analysis llm
        = (mkRAGResponse Val.vNone (Val.vStr "No analysis to generate answer from")
            "answer_query", 0)) := by
  constructor
  · intro q context llm h
    rcases h with h | h <;> simp [analyze_context_node, h]
  · intro q oq analysis llm h
    rcases h with h | h | h <;> simp [answer_query_node, h]

/-- C6 witness: concrete empty-input short circuits of both nodes. -/
theorem C6_empty_short_circuit_witness :
    analyze_context_node "what is in the document" [] (fun _ => "resp")
      = (⟨"No context to analyze", ENDNODE⟩, 0) ∧
    answer_query_node "what is in the document" "orig" none (fun _ => "resp")
      = (mkRAGResponse Val.vNone (Val.vStr "No analysis to generate answer from")
          "answer_query", 0) := by
  exact ⟨C6_empty_short_circuit.1 "what is in the document" [] (fun _ => "resp")
      (Or.inr rfl),
    C6_empty_short_circuit.2 "what is in the document" "orig" none (fun _ => "resp")
      (Or.inr (Or.inl rfl))⟩

/-- C7 counterexample: with an affirmative process-check and an existing
previous message whose content is empty, the node returns the error
record instead of ingesting the previous content — refuting the claim
that an affirmative check plus an existing previous message always makes
that content the document. -/
theorem C7_empty_previous_counterexample :
    process_document_node [⟨1, Role.human, ""⟩, ⟨2, Role.human, "please store this text"⟩]
        (fun _ => ReadResult.fileError "unused") "true" "2024-01-01T00:00:00"
        (Val.vDict [("status", Val.vStr "success")])
      = (mkRAGResponse
          (Val.vDict [("error", Val.vStr "No valid file or content found to process")])
          Val.vNone "process_document", none) ∧
    ([⟨1, Role.human, ""⟩, ⟨2, Role.human, "please store this text"⟩] :
        List Msg).dropLast.getLast? = some ⟨1, Role.human, ""⟩ ∧
    pyLower (pyStrip "true") = "true" := by
  exact ⟨rfl, rfl, rfl⟩

/-- C7 amended: when the latest message has no filename match, a negative
check or a missing or EMPTY previous message yields the structured error
record without raising and without an ingestion call; an affirmative
check with a non-empty previous message ingests that content tagged with
type inline, source research_results or chat by the research mention,
and the current timestamp. -/
theorem C7_ingestion_resolution_amended (messages : List Msg) (lastMsg : Msg)
    (readFile : String → ReadResult) (checkResp now : String) (ingestResult : Val)
    (hlast : messages.getLast? = some lastMsg)
    (hnofile : searchFile lastMsg.content.data = none) :
    ((pyLower (pyStrip checkResp) ≠ "true" ∨
        ((messages.dropLast.getLast?).map Msg.content).getD "" = "") →
      process_document_node messages readFile checkResp now ingestResult
        = (mkRAGResponse
            (Val.vDict [("error", Val.vStr "No valid file or content found to process")])
            Val.vNone "process_document", none)) ∧
    (∀ p, (messages.dropLast.getLast?).map Msg.content = some p → p ≠ "" →
      pyLower (pyStrip checkResp) = "true" →
      process_document_node messages readFile checkResp now ingestResult
        = (mkRAGResponse ingestResult Val.vNone "process_document",
           some ⟨p, Val.vDict [("type", Val.vStr "inline"),
             ("source", Val.vStr (if pyContains (pyLower p) "research"
                then "research_results" else "chat")),
             ("timestamp", Val.vStr now)]⟩)) := by
  constructor
  · intro h
    rcases h with h | h
    · simp [process_document_node, hlast, hnofile, h]
    · simp [process_document_node, hlast, hnofile, h, String.isEmpty]
  · intro p hp hpne hck
    have hpe : p.isEmpty = false := by
      rw [← Bool.not_eq_true, String.isEmpty_iff]
      exact hpne
    simp [process_document_node, hlast, hnofile, hck, hp, hpe]

/-- C7 witness: an affirmative check over a previous message that
mentions research is ingested with source research_results and the
current timestamp. -/
theorem C7_ingestion_resolution_witness :
    process_document_node
        [⟨1, Role.human, "research findings about topic"⟩, ⟨2, Role.human, "save this"⟩]
        (fun _ => ReadResult.fileError "unused") " True\n" "2024-01-01T00:00:00"
        (Val.vDict [("status", Val.vStr "success")])
      = (mkRAGResponse (Val.vDict [("status", Val.vStr "success")]) Val.vNone
          "process_document",
         some ⟨"research findings about topic",
           Val.vDict [("type", Val.vStr "inline"),
             ("source", Val.vStr "research_results"),
             ("timestamp", Val.vStr "2024-01-01T00:00:00")]⟩) := by
  exact (C7_ingestion_resolution_amended
    [⟨1, Role.human, "research findings about topic"⟩, ⟨2, Role.human, "save this"⟩]
    ⟨2, Role.human, "save this"⟩ (fun _ => ReadResult.fileError "unused") " True\n"
    "2024-01-01T00:00:00" (Val.vDict [("status", Val.vStr "success")])
    (by decide) (by decide)).2 "research findings about topic" rfl (by decide) (by decide)

/-- C8: each search branch with an empty extracted query returns the
empty result with zero collaborator calls, and the output of each branch
depends only on its own query field — neither branch reads the other
branch state. -/
theorem C8_branch_independence :
    (∀ (st : ResearchState) (search : String → List WebHit),
      st.web_query = "" → web_search_node st search = ("", 0)) ∧
    (∀ (st : ResearchState) (search : String → List WikiHit),
      st.wiki_query = "" → wiki_search_node st search = ("", 0)) ∧
    (∀ (s1 s2 : ResearchState) (search : String → List WebHit),
      s1.web_query = s2.web_query →
      web_search_node s1 search = web_search_node s2 search) ∧
    (∀ (s1 s2 : ResearchState) (search : String → List WikiHit),
      s1.wiki_query = s2.wiki_query →
      wiki_search_node s1 search = wiki_search_node s2 search) := by
  refine ⟨?_, ?_, ?_, ?_⟩
  · intro st search h
    simp [web_search_node, h]
  · intro st search h
    simp [wiki_search_node, h]
  · intro s1 s2 search h
    simp [web_search_node, h]
  · intro s1 s2 search h
    simp [wiki_search_node, h]

/-- C8 witness: concrete empty-query short circuits and a frame instance
where only the non-own fields differ. -/
theorem C8_branch_independence_witness :
    web_search_node ⟨"", "wq", "", ""⟩ (fun _ => [⟨some "u", "c"⟩]) = ("", 0) ∧
    wiki_search_node ⟨"wq", "", "", ""⟩ (fun _ => [⟨some "t", "c"⟩]) = ("", 0) ∧
    web_search_node ⟨"q", "a", "b", "c"⟩ (fun _ => [⟨some "u", "c"⟩])
      = web_search_node ⟨"q", "x", "y", "z"⟩ (fun _ => [⟨some "u", "c"⟩]) := by
  exact ⟨C8_branch_independence.1 _ _ rfl, C8_branch_independence.2.1 _ _ rfl,
    C8_branch_independence.2.2.1 _ _ _ rfl⟩

/-- C2: the claim is the design intent, but the code violates it — the
normal no-content outcome of `process_document_node` is an error-shaped
`document_status`, and `synthesize_node` on the RAG route with exactly
that record raises KeyError("metadata") out of the node instead of
returning a message. -/
theorem C2_synthesize_raises_on_error_status :
    process_document_node [⟨1, Role.human, "please process this now"⟩]
        (fun _ => ReadResult.fileError "unused") "true" "2024-01-01T00:00:00" Val.vNone
      = (mkRAGResponse
          (Val.vDict [("error", Val.vStr "No valid file or content found to process")])
          Val.vNone "process_document", none) ∧
    synthesize_node
        ⟨Val.vStr "[Selected Route]\nRAG\n",
         mkRAGResponse
           (Val.vDict [("error", Val.vStr "No valid file or content found to process")])
           Val.vNone "process_document",
         Val.vNone, Val.vNone, Val.vNone, []⟩ 99
      = Except.error (PyErr.keyError "metadata") := by
  exact ⟨rfl, rfl⟩

/-- The fuel-driven split worker never returns an empty list (helper). -/
theorem pySplitAux_ne_nil (sep : List Char) (fuel : Nat) (xs : List Char) :
    pySplitAux sep fuel xs ≠ [] := by
  cases fuel with
  | zero => simp [pySplitAux]
  | succ n =>
    unfold pySplitAux
    cases h : findSub sep xs with
    | none => simp
    | some i => simp

/-- Splitting on a separator that occurs yields at least two pieces
(helper). -/
theorem pySplit_get1 (s sub : String) (h : pyContains s sub = true) :
    ∃ t, pyGetItem (pySplit s sub) 1 = Except.ok t := by
  rw [pyContains, Option.isSome_iff_exists] at h
  rcases h with ⟨i, hi⟩
  have hl : pySplit s sub
      = String.mk (s.data.take i)
        :: (pySplitAux sub.data s.data.length
            (s.data.drop (i + sub.data.length))).map String.mk := by
    simp only [pySplit, pySplitAux, hi]
    rfl
  rcases hrest : pySplitAux sub.data s.data.length (s.data.drop (i + sub.data.length))
    with _ | ⟨b, bs⟩
  · exact absurd hrest (pySplitAux_ne_nil _ _ _)
  · rw [hl, hrest]
    exact ⟨String.mk b, rfl⟩

/-- Deleting the tail after an index and appending one fresh message
(helper). -/
theorem add_messages_drop_tail (messages : List Msg) (k fid : Nat) (role : Role)
    (content : String) (hnd : (messages.map Msg.id).Nodup)
    (hfresh : ∀ x ∈ messages, x.id ≠ fid) :
    add_messages messages
        ((messages.drop (k + 1)).map (fun m => MsgOp.removeMsg m.id)
          ++ [MsgOp.add ⟨fid, role, content⟩])
      = messages.take (k + 1) ++ [⟨fid, role, content⟩] := by
  have hmm : (messages.drop (k + 1)).map (fun m => MsgOp.removeMsg m.id)
      = ((messages.drop (k + 1)).map Msg.id).map MsgOp.removeMsg := by
    rw [List.map_map]
    rfl
  rw [hmm, add_messages_removes_then_adds _ _ _ hfresh]
  congr 1
  have hres := filter_id_not_mem_suffix (messages.take (k + 1))
    (messages.drop (k + 1)) (by rw [List.take_append_drop]; exact hnd)
  rw [List.take_append_drop] at hres
  exact hres

/-- C10 counterexample: with the DIAGRAM route, a present structured
artifact whose diagram text contains the mermaid fence marker without a
following newline makes `synthesize_node` raise IndexError — no messages
are removed — refuting the claim for the success branch as stated. -/
theorem C10_mermaid_fence_counterexample :
    synthesize_node
        ⟨Val.vStr "[Selected Route]\nDIAGRAM\n", Val.vNone, Val.vNone,
         Val.vDiagram "```mermaid graph TD" "diagram.md", Val.vNone,
         [⟨1, Role.human, "draw me a diagram"⟩, ⟨2, Role.ai, "tool call noise"⟩]⟩ 9
      = Except.error PyErr.indexError := by
  exact rfl

/-- C10 amended: in the DIAGRAM case with at least one human message
(ids distinct, reply id fresh), both the failure branch and every
success branch whose diagram text does not contain a newline-less fence
marker replace the tail after the most recent human message with a
single new assistant message, leaving the prefix through that human
message unchanged. -/
theorem C10_diagram_tail_replacement_amended (rd : String)
    (rag res sumr structured : Val) (messages : List Msg) (k fid : Nat)
    (hroute : parseRouteE rd = Except.ok "DIAGRAM")
    (hidx : lastHumanIdx messages = some k)
    (hnd : (messages.map Msg.id).Nodup)
    (hfresh : ∀ x ∈ messages, x.id ≠ fid)
    (hdiag : ∀ d f, structured = Val.vDiagram d f →
      pyContains d "```mermaid" = true → pyContains d "```mermaid\n" = true) :
    ∃ ops content,
      synthesize_node ⟨Val.vStr rd, rag, res, structured, sumr, messages⟩ fid
        = Except.ok ops ∧
      add_messages messages ops
        = messages.take (k + 1) ++ [⟨fid, Role.ai, content⟩] := by
  have hcase : ∃ content,
      diagram_case structured messages fid
        = Except.ok ((messages.drop (k + 1)).map (fun m => MsgOp.removeMsg m.id)
            ++ [MsgOp.add ⟨fid, Role.ai, content⟩]) := by
    cases structured with
    | vDiagram d f =>
      by_cases hc : pyContains d "```mermaid" = true
      · rcases pySplit_get1 d "```mermaid\n" (hdiag d f rfl hc) with ⟨t, ht⟩
        refine ⟨"I've created a visual representation of the components and their relationships.\n\n" ++
          "The Mermaid.js diagram has been generated and saved to: " ++ f ++
          "\n\nHere's the diagram content:\n\n" ++ (pySplit t "```").headD "" ++
          "\n\nYou can now ask questions about the diagram!", ?_⟩
        simp [diagram_case, hidx, hc, ht]
      · refine ⟨"I've created a visual representation of the components and their relationships.\n\n" ++
          "The Mermaid.js diagram has been generated and saved to: " ++ f ++
          "\n\nHere's the diagram content:\n\n" ++ d ++
          "\n\nYou can now ask questions about the diagram!", ?_⟩
        simp [diagram_case, hidx, hc]
    | vNone => exact ⟨diagram_failure_text, by simp [diagram_case, hidx]⟩
    | vStr s => exact ⟨diagram_failure_text, by simp [diagram_case, hidx]⟩
    | vNat n => exact ⟨diagram_failure_text, by simp [diagram_case, hidx]⟩
    | vDict es => exact ⟨diagram_failure_text, by simp [diagram_case, hidx]⟩
    | vSummarizer a b => exact ⟨diagram_failure_text, by simp [diagram_case, hidx]⟩
  rcases hcase with ⟨content, hcontent⟩
  refine ⟨(messages.drop (k + 1)).map (fun m => MsgOp.removeMsg m.id)
    ++ [MsgOp.add ⟨fid, Role.ai, content⟩], content, ?_, ?_⟩
  · have h1 : synthCase1 "DIAGRAM" rag fid = none := by simp [synthCase1]
    have h2 : synthCase2 "DIAGRAM" res fid = none := by simp [synthCase2]
    have h3 : synthCase3 "DIAGRAM" structured messages fid
        = some (diagram_case structured messages fid) := by simp [synthCase3]
    simp only [synthesize_node, synthesize_route, hroute, h1, h2, h3]
    exact hcontent
  · exact add_messages_drop_tail messages k fid Role.ai content hnd hfresh

/-- C10 witness: the amended tail replacement at a concrete state with a
benign diagram artifact. -/
theorem C10_diagram_tail_replacement_witness :
    ∃ ops content,
      synthesize_node
          ⟨Val.vStr "[Selected Route]\nDIAGRAM\n", Val.vNone, Val.vNone,
           Val.vDiagram "graph TD; A-->B" "d.md", Val.vNone,
           [⟨1, Role.human, "draw"⟩, ⟨2, Role.ai, "noise"⟩]⟩ 9
        = Except.ok ops ∧
      add_messages [⟨1, Role.human, "draw"⟩, ⟨2, Role.ai, "noise"⟩] ops
        = ([⟨1, Role.human, "draw"⟩, ⟨2, Role.ai, "noise"⟩] : List Msg).take (0 + 1)
          ++ [⟨9, Role.ai, content⟩] := by
  exact C10_diagram_tail_replacement_amended "[Selected Route]\nDIAGRAM\n" Val.vNone
    Val.vNone Val.vNone (Val.vDiagram "graph TD; A-->B" "d.md")
    [⟨1, Role.human, "draw"⟩, ⟨2, Role.ai, "noise"⟩] 0 9
    (by decide) (by decide) (by decide) (by decide)
    (by intro d f heq hc; cases heq; exact absurd hc (by decide))

end MAS
